import Mathlib

/-!
Shallow embedding of the BlueBerry session-lock cycling scheduler
(`src/BlueBerryService.ts`) and proofs about it.

JavaScript numbers are modelled as `Option ℚ`: `some q` is an ordinary
(finite) number and `none` is `NaN`.  Comparisons involving `NaN` are
false, and arithmetic on `NaN` yields `NaN`, exactly as in JavaScript.
The exact decimal renderings JavaScript produces (`toFixed`, number →
string coercion inside template literals) are abstracted by `toString`
on the rational; no theorem below depends on those renderings.
-/

namespace BlueBerry

/-- JavaScript `a > b` on possibly-NaN numbers: any comparison with NaN
is false. -/
def jsGt (a b : Option ℚ) : Bool :=
  match a, b with
  | some x, some y => decide (y < x)
  | _, _ => false

/-- JavaScript `a >= b` on possibly-NaN numbers. -/
def jsGe (a b : Option ℚ) : Bool :=
  match a, b with
  | some x, some y => decide (y ≤ x)
  | _, _ => false

/-- JavaScript `String.prototype.trim`: strip leading and trailing
whitespace (the ASCII whitespace characters; JavaScript's larger
Unicode whitespace class is irrelevant to the inputs considered). -/
def jsTrim (s : String) : String :=
  String.mk
    (((s.data.dropWhile Char.isWhitespace).reverse.dropWhile Char.isWhitespace).reverse)

/-- Numeric value of a list of decimal digit characters (the usual
left-to-right accumulation used by `parseInt`/`parseFloat`). -/
def digitsVal (ds : List Char) : Nat :=
  ds.foldl (fun n c => 10 * n + (c.toNat - 48)) 0

/-- The decomposition performed by JavaScript `parseFloat` on a string
made of digits and dots: a greedy run of integer digits, then, if a dot
follows, a greedy run of fraction digits; returns
(integer digits, fraction digits, unconsumed rest). -/
def parseFloatParts (cs : List Char) : List Char × List Char × List Char :=
  let ip := cs.takeWhile Char.isDigit
  let rest1 := cs.dropWhile Char.isDigit
  match rest1 with
  | '.' :: rest2 => (ip, rest2.takeWhile Char.isDigit, rest2.dropWhile Char.isDigit)
  | _ => (ip, [], rest1)

/-- JavaScript `parseFloat` restricted to strings of digits and dots
(the only strings the duration regex can hand it): parses the longest
valid numeric prefix; NaN (`none`) when no digit is consumed.
`parseFloat(".") = NaN`, `parseFloat("10.5.5") = 10.5`. -/
def jsParseFloat (cs : List Char) : Option ℚ :=
  let p := parseFloatParts cs
  if p.1 = [] ∧ p.2.1 = [] then none
  else some ((digitsVal p.1 : ℚ) + (digitsVal p.2.1 : ℚ) / 10 ^ p.2.1.length)

/-- A numeric string that is a single well-formed decimal literal in its
entirety: `parseFloat` consumes every character and yields a value.
(Used to state what the spec means by "a decimal number `n`".) -/
def decimalFull (cs : List Char) : Option ℚ :=
  let p := parseFloatParts cs
  if p.2.2 = [] then jsParseFloat cs else none

/-- Character class `[\d.]` of the duration regex. -/
def isNumDotChar (c : Char) : Bool := c.isDigit || c = '.'

/-- Character class `[hms]` with the `i` flag of the duration regex. -/
def isUnitChar (c : Char) : Bool :=
  c.toLower = 'h' || c.toLower = 'm' || c.toLower = 's'

/-- The match `s.match(/^([\d.]+)([hms])$/i)`: succeeds iff the string
is one or more digit/dot characters followed by a single unit letter;
returns the two capture groups. -/
def matchDuration (s : String) : Option (List Char × Char) :=
  match s.data.reverse with
  | [] => none
  | u :: revRest =>
    if isUnitChar u && !revRest.isEmpty && revRest.all isNumDotChar then
      some (revRest.reverse, u)
    else none

/-- Externally observable steps of the service, in program order.
`run` is an awaited `runCommandAsync`/`execAndWaitForOutput` spawn,
`runFF` a fire-and-forget (`void`-ed) spawn, `logged` the dry-run
`logCommand` replacement for either, `sleepStart` the scheduling of a
`setTimeout` by `sleep(ms)`, and `stopCall` an internal call to
`stop()`. -/
inductive Effect where
  | run (cmd : String) (args : List String)
  | runFF (cmd : String) (args : List String)
  | logged (cmd : String) (args : List String)
  | logInfo (msg : String)
  | logError (msg : String)
  | showInfo (msg : String)
  | showError (msg : String)
  | inputBox (prompt : String)
  | sleepStart (ms : Option ℚ)
  | stopCall
  deriving DecidableEq, Repr

/-- Milliseconds per unit, from the `switch` in `parseDuration`. -/
def unitFactor (u : Char) : ℚ :=
  if u = 'h' then 60 * 60 * 1000
  else if u = 'm' then 60 * 1000
  else if u = 's' then 1000
  else 60 * 60 * 1000

/-- `parseDuration` (BlueBerryService.ts lines 55-78): trim, match the
regex; on no match log an error and fall back to one hour; otherwise
`parseFloat` the numeric group and scale by the unit.  Returns the
resulting JavaScript number together with the log effects emitted. -/
def parseDuration (duration : String) : Option ℚ × List Effect :=
  match matchDuration (jsTrim duration) with
  | none =>
    (some (60 * 60 * 1000),
     [Effect.logError
        ("Invalid duration format: \"" ++ duration ++ "\". Using default 1 hour.")])
  | some (numPart, unitChar) =>
    let value := jsParseFloat numPart
    let unit := unitChar.toLower
    (if unit = 'h' then value.map (fun v => v * (60 * 60 * 1000))
     else if unit = 'm' then value.map (fun v => v * (60 * 1000))
     else if unit = 's' then value.map (fun v => v * 1000)
     else some (60 * 60 * 1000), [])

/-- The 30-minute hard cap of `validateLockIntervals`. -/
def MAX_INTERVAL_MS : ℚ := 30 * 60 * 1000

/-- JavaScript rendering of a possibly-NaN number inside a template
literal (decimal rendering abstracted by `toString` on the rational). -/
def numToString (q : Option ℚ) : String :=
  match q with
  | some x => toString x
  | none => "NaN"

/-- The interpolated min-greater-than-max message. -/
def minGtMaxMsg (minMs maxMs : Option ℚ) : String :=
  "Minimum lock interval (" ++ numToString minMs ++ "ms) cannot be greater than maximum ("
    ++ numToString maxMs ++ "ms)"

/-- `validateLockIntervals` (lines 261-289), on possibly-NaN inputs. -/
def validateLockIntervals (minMs maxMs : Option ℚ) : Bool × Option String :=
  if jsGt minMs (some MAX_INTERVAL_MS) then
    (false, some "Minimum lock interval exceeds 30 minutes limit")
  else if jsGt maxMs (some MAX_INTERVAL_MS) then
    (false, some "Maximum lock interval exceeds 30 minutes limit")
  else if jsGt minMs maxMs then
    (false, some (minGtMaxMsg minMs maxMs))
  else (true, none)

/-- `getRandomLockInterval` (lines 291-298) with `Math.random()`'s draw
`rand` passed explicitly.  JavaScript `===` on NaN is false, and
arithmetic with NaN gives NaN. -/
def getRandomLockInterval (minMs maxMs : Option ℚ) (rand : ℚ) : Option ℚ :=
  match minMs, maxMs with
  | some a, some b => if a = b then some a else some (rand * (b - a) + a)
  | _, _ => none

/-- JavaScript `hay.includes(pat)` on character lists. -/
def inclAux (pat : List Char) : List Char → Bool
  | [] => pat.isEmpty
  | c :: rest => pat.isPrefixOf (c :: rest) || inclAux pat rest

/-- JavaScript `hay.includes(pat)`. -/
def strIncludes (hay pat : String) : Bool := inclAux pat.data hay.data

/-- JavaScript `line.match(/id=(\d+)/)` followed by `parseInt` on the
capture: scan for the first occurrence of `id=` followed by at least
one digit and return the value of the full digit run. -/
def idScan : List Char → Option Nat
  | [] => none
  | 'i' :: rest =>
    match rest with
    | 'd' :: '=' :: rest2 =>
      let ds := rest2.takeWhile Char.isDigit
      if ds.isEmpty then idScan rest else some (digitsVal ds)
    | _ => idScan rest
  | _ :: rest => idScan rest

/-- JavaScript `output.split("\n")` on character lists. -/
def splitLines : List Char → List (List Char)
  | [] => [[]]
  | '\n' :: rest => [] :: splitLines rest
  | c :: rest =>
    match splitLines rest with
    | [] => [[c]]
    | l :: ls => (c :: l) :: ls

/-- Keyboard-line test of `getKeyboardIds` (lines 217-221): the line
contains both `"slave  keyboard"` (two spaces) and `"wired keyboard"`. -/
def lineIsKeyboard (l : List Char) : Bool :=
  inclAux "slave  keyboard".data l && inclAux "wired keyboard".data l

/-- Mouse-line test of `getMouseIds` (lines 242-246): the line contains
`"slave  pointer"` (two spaces) and `"Mouse"` or `"mouse"`. -/
def lineIsMouse (l : List Char) : Bool :=
  inclAux "slave  pointer".data l
    && (inclAux "Mouse".data l || inclAux "mouse".data l)

/-- Keyboard-id extraction of `getKeyboardIds` applied to a listing. -/
def keyboardIdsFromOutput (out : String) : List Nat :=
  ((splitLines out.data).filter lineIsKeyboard).filterMap idScan

/-- Mouse-id extraction of `getMouseIds` applied to a listing. -/
def mouseIdsFromOutput (out : String) : List Nat :=
  ((splitLines out.data).filter lineIsMouse).filterMap idScan

/-- The fixed dry-run mock `xinput list` output (lines 143-148),
byte-for-byte. -/
def mockXinputList : String :=
  "⎡ Virtual core pointer                    \tid=2\t[master pointer  (3)]\n⎜   ↳ Virtual core XTEST pointer              \tid=4\t[slave  pointer  (2)]\n⎜   ↳ Logitech USB Mouse                       \tid=9\t[slave  pointer  (2)]\n⎣ Virtual core keyboard                   \tid=3\t[master keyboard (2)]\n    ↳ Virtual core XTEST keyboard             \tid=5\t[slave  keyboard (3)]\n    ↳ AT Translated Set 2 wired keyboard      \tid=10\t[slave  keyboard (3)]"

/-- The fixed dry-run mock `loginctl list-sessions --no-legend` output
(line 156). -/
def mockLoginctl : String := "c54 103457 abennar seat0"

/-! ### Timers and `stop()`

`sleep(ms)` (lines 45-53) creates a promise whose `resolve` is invoked
*only* inside the `setTimeout` callback; the callback also removes the
timeout id from `activeTimeouts`.  `clearTimeout` prevents the callback
from ever running.  The timer state below records, per timeout id,
whether it is still pending in the `activeTimeouts` set, whether its
callback has fired (equivalently: its sleep promise has resolved), and
whether it has been canceled. -/

/-- State of the `activeTimeouts` set and of the underlying timers. -/
structure TimerState where
  pending : List Nat
  fired : List Nat
  canceled : List Nat
  deriving DecidableEq, Repr

/-- Scheduling a sleep (lines 46-51): the fresh timeout id is added to
the `activeTimeouts` set. -/
def sleepSchedule (id : Nat) (ts : TimerState) : TimerState :=
  { ts with pending := ts.pending ++ [id] }

/-- A pending timer's callback firing (lines 47-50): the id is removed
from `activeTimeouts` and the sleep promise resolves (recorded in
`fired`). -/
def timerFire (id : Nat) (ts : TimerState) : TimerState :=
  if id ∈ ts.pending then
    { pending := ts.pending.erase id, fired := ts.fired ++ [id],
      canceled := ts.canceled }
  else ts

/-- `clearTimeout(timeoutId)` (line 581): cancels the scheduled
callback.  The callback never runs afterwards, so the corresponding
sleep promise never resolves (`fired` is untouched); the
`activeTimeouts` set is also untouched by `clearTimeout` itself (the
loop in `stop()` clears the whole set afterwards). -/
def clearTimeoutFn (ts : TimerState) (id : Nat) : TimerState :=
  { ts with canceled := ts.canceled ++ [id] }

/-- The timer-clearing portion of `stop()` (lines 580-583):
`clearTimeout` every member of `activeTimeouts`, then
`activeTimeouts.clear()`. -/
def stopClearTimers (ts : TimerState) : TimerState :=
  let ts2 := ts.pending.foldl clearTimeoutFn ts
  { ts2 with pending := [] }

/-- Service state visible to `stop()`. -/
structure StopState where
  active : Bool
  timers : TimerState
  hasLoopTask : Bool
  deriving DecidableEq, Repr

/-- `stop()` (lines 571-596): set `active` false, cancel and clear all
of `activeTimeouts`, drop the loop-task reference without awaiting it,
then emit the completion messages. -/
def stopFn (s : StopState) : StopState × List Effect :=
  let n := s.timers.pending.length
  let ts2 := stopClearTimers s.timers
  ({ active := false, timers := ts2, hasLoopTask := false },
   [Effect.logInfo "[BlueBerry] Stop requested",
    Effect.logInfo ("[BlueBerry] Clearing " ++ toString n ++ " active timeout(s)"),
    Effect.logInfo "[BlueBerry] All timeouts cleared"]
   ++ (if s.hasLoopTask then
        [Effect.logInfo "[BlueBerry] Loop task is running but we're not waiting for it"]
      else [])
   ++ [Effect.logInfo "[BlueBerry] Stopped successfully",
       Effect.showInfo "BlueBerry is stopped."])

/-! ### One iteration of the scheduler loop (`loopTask`, lines 357-488)

The asynchronous environment an iteration runs against: what the secret
store and configuration return, what the external commands produce, the
random draw, and — for the two suspension points — whether the
scheduled timer fires at all (a timer canceled by `stop()` never
resumes the task) and, if it does, what `this.active` reads on
resumption. -/

structure LoopEnv where
  dryRun : Bool
  storedSecret : Option String
  durationCfg : Option String
  lockMinCfg : Option String
  lockMaxCfg : Option String
  xinputListResult : Option String
  loginctlResult : Option String
  now : ℤ
  rand : ℚ
  sleep1Fires : Bool
  activeAfterSleep1 : Bool
  sleep2Fires : Bool
  activeAfterSleep2 : Bool
  activeAtEnd : Bool

/-- The per-run fields of the service an iteration reads. -/
structure SvcState where
  active : Bool
  startTime : ℤ
  deriving DecidableEq, Repr

/-- `secretStorage.get("blueberry-secret"))?.trim()`. -/
def secretResolved (o : Option String) : Option String := o.map jsTrim

/-- JavaScript truthiness of the resolved secret (`!secret` is true for
`undefined` and for the empty string). -/
def secretTruthy (o : Option String) : Bool :=
  match secretResolved o with
  | some s => !s.data.isEmpty
  | none => false

/-- An awaited `runCommandAsync`: logged in dry-run, spawned otherwise. -/
def runE (dry : Bool) (cmd : String) (args : List String) : Effect :=
  if dry then Effect.logged cmd args else Effect.run cmd args

/-- A `void`-ed (fire-and-forget) `runCommandAsync`. -/
def ffE (dry : Bool) (cmd : String) (args : List String) : Effect :=
  if dry then Effect.logged cmd args else Effect.runFF cmd args

/-- Output of `execAndWaitForOutput(xinput, [list])`: the fixed mock in
dry-run, otherwise whatever the real command produced (`none` models a
rejected promise, caught by the enumerators). -/
def xinputListOut (env : LoopEnv) : Option String :=
  if env.dryRun then some mockXinputList else env.xinputListResult

/-- `getMouseIds` (lines 236-259): effects and resulting ids; on
failure log the error and return no devices. -/
def getMouseIdsM (env : LoopEnv) : List Effect × List Nat :=
  match xinputListOut env with
  | some out => ([runE env.dryRun "xinput" ["list"]], mouseIdsFromOutput out)
  | none =>
    ([runE env.dryRun "xinput" ["list"], Effect.logError "Error getting mouse IDs:"], [])

/-- `getKeyboardIds` (lines 211-234). -/
def getKeyboardIdsM (env : LoopEnv) : List Effect × List Nat :=
  match xinputListOut env with
  | some out => ([runE env.dryRun "xinput" ["list"]], keyboardIdsFromOutput out)
  | none =>
    ([runE env.dryRun "xinput" ["list"], Effect.logError "Error getting keyboard IDs:"], [])

/-- First column of the first non-blank line of the `loginctl` session
listing (`getCurrentSessionId`, lines 309-322). -/
def firstSession (out : String) : Option String :=
  (splitLines out.data).findSome? (fun l =>
    let t := jsTrim (String.mk l)
    if t.data.isEmpty then none
    else some (t.takeWhile (fun c => !c.isWhitespace)))

/-- `terminateSession` (lines 336-350) together with the
`getCurrentSessionId` query it performs. -/
def terminateSessionEffects (env : LoopEnv) : List Effect :=
  let listEff := [runE env.dryRun "loginctl" ["list-sessions", "--no-legend"]]
  let outOpt := if env.dryRun then some mockLoginctl else env.loginctlResult
  match outOpt with
  | none =>
    listEff ++ [Effect.logError "[BlueBerry] Error executing loginctl: ",
                Effect.logError "Could not get session ID for logout"]
  | some out =>
    listEff ++ [Effect.logInfo ("[BlueBerry] loginctl output: \"" ++ out ++ "\"")]
      ++ match firstSession out with
         | some sid =>
           [Effect.logInfo ("[BlueBerry] Found session ID: " ++ sid),
            Effect.logInfo ("[BlueBerry] Terminating session: " ++ sid),
            runE env.dryRun "loginctl" ["terminate-session", sid]]
         | none =>
           [Effect.logError "[BlueBerry] No session found in loginctl output",
            Effect.logError "Could not get session ID for logout"]

/-- `hasTimeExpired` (lines 352-355): elapsed wall clock at least the
configured duration (false when the duration parsed to NaN). -/
def hasTimeExpired (env : LoopEnv) (st : SvcState) (durationMs : Option ℚ) : Bool :=
  jsGe (some ((env.now - st.startTime : ℤ) : ℚ)) durationMs

/-- The `(lockIntervalMs / 1000 / 60).toFixed(2)` rendering (decimal
formatting abstracted). -/
def lockMinutesStr (ms : Option ℚ) : String :=
  numToString (ms.map (fun v => v / 1000 / 60))

/-- `ids.join(", ")`. -/
def joinComma (l : List Nat) : String :=
  String.intercalate ", " (l.map toString)

/-- Log lines emitted only in dry-run mode. -/
def dryLogs (dry : Bool) (l : List Effect) : List Effect :=
  if dry then l else []

/-- The body of one `loopTask` iteration after the secret/active guard
has passed (lines 365-488), as the list of effects it performs in
order, paired with whether it reschedules itself (line 485-487). -/
def loopBody (env : LoopEnv) (st : SvcState) (secret : String) : List Effect × Bool :=
  let pd := parseDuration ((env.durationCfg).getD "1h")
  let pmin := parseDuration ((env.lockMinCfg).getD "10m")
  let pmax := parseDuration ((env.lockMaxCfg).getD "20m")
  let pLogs := pd.2 ++ pmin.2 ++ pmax.2
  let v := validateLockIntervals pmin.1 pmax.1
  if v.1 = false then
    (pLogs ++
      [Effect.logError ("[BlueBerry] Lock interval validation failed: " ++ v.2.getD ""),
       Effect.stopCall,
       Effect.showError ("BlueBerry stopped: " ++ v.2.getD "" ++ ". Please check your settings.")],
     false)
  else if hasTimeExpired env st pd.1 then
    (pLogs ++
      [Effect.logInfo ("[BlueBerry] Duration of " ++ (env.durationCfg).getD "1h"
          ++ " expired. Logging out...")]
      ++ terminateSessionEffects env
      ++ [Effect.stopCall,
          Effect.showInfo ("BlueBerry finished after " ++ (env.durationCfg).getD "1h"
            ++ ". Logged out.")],
     false)
  else
    let lockMs := getRandomLockInterval pmin.1 pmax.1 env.rand
    let cycLogs := dryLogs env.dryRun
      [Effect.logInfo "[BlueBerry] ===== New cycle started =====",
       Effect.logInfo ("[BlueBerry] Next lock in " ++ lockMinutesStr lockMs ++ " minutes")]
    let m := getMouseIdsM env
    let k := getKeyboardIdsM env
    let foundLogs := dryLogs env.dryRun
      [Effect.logInfo ("[BlueBerry] Found " ++ toString m.2.length ++ " mouse(s): "
          ++ joinComma m.2),
       Effect.logInfo ("[BlueBerry] Found " ++ toString k.2.length ++ " keyboard(s): "
          ++ joinComma k.2)]
    let pre := pLogs ++ cycLogs ++ m.1 ++ k.1 ++ foundLogs
      ++ [runE env.dryRun "ft_lock" [], ffE env.dryRun "xset" ["dpms", "force", "off"]]
      ++ dryLogs env.dryRun
           [Effect.logInfo ("[BlueBerry] Sleeping for " ++ lockMinutesStr lockMs ++ " minutes...")]
      ++ [Effect.sleepStart lockMs]
    if env.sleep1Fires = false then (pre, false)
    else if env.activeAfterSleep1 = false then (pre, false)
    else
      let mid := pre
        ++ [ffE env.dryRun "xset" ["dpms", "force", "off"]]
        ++ m.2.map (fun i => runE env.dryRun "xinput" ["disable", toString i])
        ++ k.2.map (fun i => runE env.dryRun "xinput" ["disable", toString i])
        ++ [runE env.dryRun "ft_lock" [],
            runE env.dryRun "xdotool" ["type", secret],
            ffE env.dryRun "xset" ["dpms", "force", "off"],
            runE env.dryRun "xdotool" ["key", "Return"],
            ffE env.dryRun "xset" ["dpms", "force", "off"]]
        ++ dryLogs env.dryRun [Effect.logInfo "[BlueBerry] Unlocked for 500ms..."]
        ++ [Effect.sleepStart (some 500)]
      if env.sleep2Fires = false then (mid, false)
      else if env.activeAfterSleep2 = false then (mid, false)
      else
        let fin := mid
          ++ [ffE env.dryRun "xset" ["dpms", "force", "off"]]
          ++ m.2.map (fun i => runE env.dryRun "xinput" ["enable", toString i])
          ++ k.2.map (fun i => runE env.dryRun "xinput" ["enable", toString i])
          ++ dryLogs env.dryRun [Effect.logInfo "[BlueBerry] ===== Cycle completed ====="]
        (fin, env.activeAtEnd)

/-- One `loopTask` iteration (lines 357-488): re-resolve the secret and
return immediately with no effect unless it is truthy and the service
is active. -/
def loopIter (env : LoopEnv) (st : SvcState) : List Effect × Bool :=
  if secretTruthy env.storedSecret && st.active then
    loopBody env st ((secretResolved env.storedSecret).getD "")
  else ([], false)

/-! ### Effect classification used by the theorems -/

/-- Command name and arguments of a process-invocation effect
(spawned, fire-and-forget, or its dry-run logged surrogate). -/
def effCmdArgs : Effect → Option (String × List String)
  | Effect.run c a => some (c, a)
  | Effect.runFF c a => some (c, a)
  | Effect.logged c a => some (c, a)
  | _ => none

/-- An invocation of the input-text-injection command (`xdotool`),
i.e. part of the unlock/credential-replay sequence. -/
def isCredentialReplay (e : Effect) : Bool :=
  match effCmdArgs e with
  | some (c, _) => c = "xdotool"
  | none => false

/-- An `xinput disable <id>` invocation. -/
def isDeviceDisable (e : Effect) : Bool :=
  match effCmdArgs e with
  | some (c, a) => c = "xinput" && a.head? = some "disable"
  | none => false

/-- An `xinput enable <id>` invocation. -/
def isDeviceEnable (e : Effect) : Bool :=
  match effCmdArgs e with
  | some (c, a) => c = "xinput" && a.head? = some "enable"
  | none => false

/-- An invocation of the session-lock command. -/
def isLockCmd (e : Effect) : Bool :=
  match effCmdArgs e with
  | some (c, _) => c = "ft_lock"
  | none => false

/-- The scheduling of a sleep. -/
def isSleepStart : Effect → Bool
  | Effect.sleepStart _ => true
  | _ => false

/-- An effect that is none of the post-suspension cycle steps: not a
device disable, not part of the credential replay, not a device
re-enable, and not the start of a sleep. -/
def isBenignPre (e : Effect) : Bool :=
  !isDeviceDisable e && !isCredentialReplay e && !isDeviceEnable e && !isSleepStart e

/-! ### `start()` (lines 489-569) and `setSecret()` (lines 598-608) -/

/-- The binaries required by the service (lines 19-25). -/
def REQUIRED_BINARIES : List String :=
  ["ft_lock", "xdotool", "xset", "xinput", "loginctl"]

/-- Environment `start()` runs against: configuration, `which` results,
and the user's responses to the two dialogs. -/
structure StartEnv where
  dryRun : Bool
  binPresent : String → Bool
  promptChoice : Option String
  pwInput : Option String
  durationCfg : Option String
  lockMinCfg : Option String
  lockMaxCfg : Option String
  now : ℤ

/-- Service fields read or written by `start()`; `secretStore` is the
content of the secret storage under the `blueberry-secret` key, and
`hasLoopTask` whether `currentLoopTask` holds a task. -/
structure StartState where
  active : Bool
  startTime : ℤ
  hasLoopTask : Bool
  requiredBinariesChecked : Bool
  secretStore : Option String

/-- Effects of `checkRequiredBinaries` (lines 95-112): one `which`
probe per binary (logged in dry-run, where presence is assumed). -/
def checkBinEffects (env : StartEnv) : List Effect :=
  REQUIRED_BINARIES.map (fun b =>
    if env.dryRun then Effect.logged "which" [b] else Effect.run "which" [b])

/-- Binaries reported missing by `checkRequiredBinaries`: none in
dry-run (`checkBinaryExists` returns true there, lines 81-85). -/
def missingBinaries (env : StartEnv) : List String :=
  if env.dryRun then [] else REQUIRED_BINARIES.filter (fun b => !env.binPresent b)

/-- `setSecret()` (lines 598-608): prompt for a password; if the input
is truthy, store its trimmed form. -/
def setSecretFn (env : StartEnv) (st : StartState) : StartState × List Effect :=
  match env.pwInput with
  | some pw =>
    if pw.data.isEmpty then (st, [Effect.inputBox "Enter your password"])
    else ({ st with secretStore := some (jsTrim pw) },
          [Effect.inputBox "Enter your password",
           Effect.showInfo "Password updated securely."])
  | none => (st, [Effect.inputBox "Enter your password"])

/-- The error prompt shown when `start()` finds no usable secret
(lines 508-512). -/
def secretPromptMsg : String :=
  "BlueBerry cannot start: Secret is not set. Please set your password to continue."

/-- The activation tail of `start()` (lines 523-568), entered when a
truthy secret exists and the service is not yet active: set `active`
and the start timestamp, validate the freshly parsed intervals
(aborting on failure — note the source leaves `active` true in that
case), then emit the dry-run banner, perform the initial lock, start
the loop task and report. -/
def startActivate (env : StartEnv) (st : StartState) (pre : List Effect) :
    StartState × List Effect :=
  let st2 := { st with active := true, startTime := env.now }
  let duration := (env.durationCfg).getD "1h"
  let minStr := (env.lockMinCfg).getD "10m"
  let maxStr := (env.lockMaxCfg).getD "20m"
  let pmin := parseDuration minStr
  let pmax := parseDuration maxStr
  let v := validateLockIntervals pmin.1 pmax.1
  if v.1 = false then
    (st2, pre ++ pmin.2 ++ pmax.2
      ++ [Effect.showError ("BlueBerry cannot start: " ++ v.2.getD ""
            ++ ". Please check your settings.")])
  else
    let banner := dryLogs env.dryRun
      [Effect.logInfo "========================================",
       Effect.logInfo "[BlueBerry] Starting in DRY-RUN mode",
       Effect.logInfo ("[BlueBerry] Duration: " ++ duration),
       Effect.logInfo ("[BlueBerry] Lock interval: " ++ minStr ++ "-" ++ maxStr),
       Effect.logInfo "========================================"]
    ({ st2 with hasLoopTask := true },
     pre ++ pmin.2 ++ pmax.2 ++ banner
       ++ dryLogs env.dryRun [Effect.logInfo "[BlueBerry] Initial lock"]
       ++ [runE env.dryRun "ft_lock" []]
       ++ [Effect.showInfo ("BlueBerry started" ++ (if env.dryRun then " (DRY-RUN)" else "")
             ++ ". Will run for " ++ duration ++ " with " ++ minStr ++ "-" ++ maxStr
             ++ " intervals.")])

/-- `start()` after the binary gate (lines 505-568): refuse to start
without a truthy stored secret (prompting the user, optionally routing
through `setSecret`, and returning in the same call either way); when a
secret exists, activate unless already active. -/
def startAfterGate (env : StartEnv) (st : StartState) (gateEff : List Effect) :
    StartState × List Effect :=
  if secretTruthy st.secretStore = false then
    let base := gateEff ++ [Effect.showError secretPromptMsg]
    if env.promptChoice = some "Set Secret Now" then
      let r := setSecretFn env st
      (r.1, base ++ r.2 ++ [Effect.showInfo "Secret set! Please start BlueBerry again."])
    else (st, base)
  else if st.active = false then startActivate env st gateEff
  else (st, gateEff)

/-- `start()` (lines 489-569). -/
def startFn (env : StartEnv) (st : StartState) : StartState × List Effect :=
  if st.requiredBinariesChecked then startAfterGate env st []
  else
    let eff := checkBinEffects env
    let missing := missingBinaries env
    if missing.isEmpty = false && env.dryRun = false then
      (st, eff ++ [Effect.showError
        ("BlueBerry cannot start: Missing required system binaries: "
          ++ String.intercalate ", " missing ++ ". Please install them first.")])
    else startAfterGate env { st with requiredBinariesChecked := true } eff

/-! ### Helper lemmas -/

/-- A value accepted by `decimalFull` is what `parseFloat` returns. -/
lemma jsParseFloat_of_decimalFull {cs : List Char} {q : ℚ}
    (h : decimalFull cs = some q) : jsParseFloat cs = some q := by
  by_cases hr : (parseFloatParts cs).2.2 = []
  · simpa [decimalFull, hr] using h
  · simp [decimalFull, hr] at h

/-- A successful duration match returns a unit character. -/
lemma matchDuration_unit {s : String} {num : List Char} {u : Char}
    (h : matchDuration s = some (num, u)) : isUnitChar u = true := by
  unfold matchDuration at h
  split at h
  · simp at h
  · split at h
    · rename_i hcond
      obtain ⟨h1, h2⟩ := Prod.mk.injEq _ _ _ _ |>.mp (Option.some.inj h)
      simp only [Bool.and_eq_true] at hcond
      exact h2 ▸ hcond.1.1
    · simp at h

/-- A secret that is absent or trims to empty is falsy. -/
lemma secretTruthy_eq_false {o : Option String}
    (h : secretResolved o = none ∨ secretResolved o = some "") :
    secretTruthy o = false := by
  unfold secretTruthy
  rcases h with h | h <;> simp [h]

/-- Canceling timers one by one only grows the cancellation record. -/
lemma foldl_clearTimeout (l : List Nat) (ts : TimerState) :
    (l.foldl clearTimeoutFn ts).canceled = ts.canceled ++ l
    ∧ (l.foldl clearTimeoutFn ts).fired = ts.fired
    ∧ (l.foldl clearTimeoutFn ts).pending = ts.pending := by
  induction l generalizing ts with
  | nil => simp
  | cons x xs ih =>
    obtain ⟨h1, h2, h3⟩ := ih (clearTimeoutFn ts x)
    simp only [clearTimeoutFn] at h1 h2 h3
    refine ⟨?_, ?_, ?_⟩ <;> simp [List.foldl_cons, clearTimeoutFn, h1, h2, h3]

/-- The timer-clearing portion of `stop()`: the set ends empty, every
formerly pending timer is canceled, and no timer fires. -/
lemma stopClearTimers_spec (ts : TimerState) :
    (stopClearTimers ts).pending = []
    ∧ (stopClearTimers ts).canceled = ts.canceled ++ ts.pending
    ∧ (stopClearTimers ts).fired = ts.fired := by
  obtain ⟨h1, h2, _⟩ := foldl_clearTimeout ts.pending ts
  exact ⟨rfl, h1, h2⟩

/-! ### C5 / C10 — duration parsing -/

/-- Counterexample for C5: `".h"` does not consist of a well-formed
decimal number followed by a unit (its numeric part `"."` is not a
decimal literal), yet `parseDuration` neither returns the one-hour
fallback nor logs an error — the regex accepts the string and
`parseFloat(".")` gives NaN. -/
theorem parseDuration_fallback_cex :
    (matchDuration (jsTrim ".h")).isSome = true
    ∧ decimalFull ['.'] = none
    ∧ parseDuration ".h" = (none, [])
    ∧ parseDuration ".h" ≠
        (some 3600000,
         [Effect.logError "Invalid duration format: \".h\". Using default 1 hour."]) := by
  refine ⟨rfl, rfl, rfl, ?_⟩
  intro h
  have h2 : (parseDuration ".h").2 = [] := rfl
  rw [h] at h2
  simp at h2

/-- C5 as amended: for every well-formed duration — a decimal number
`n` immediately followed by one of `h`/`m`/`s` case-insensitively,
surrounding whitespace allowed — `parseDuration` returns
`n × unitFactor` with no error log; and for every string whose trimmed
form fails the regex `^([\d.]+)([hms])$/i` it returns the one-hour
fallback and logs an error.  (Total by construction, so it never
throws.  Strings accepted by the regex whose numeric part is not a
well-formed decimal fall into neither case — see C10.) -/
theorem parseDuration_spec_amended (s : String) :
    (matchDuration (jsTrim s) = none →
      parseDuration s = (some 3600000,
        [Effect.logError ("Invalid duration format: \"" ++ s ++ "\". Using default 1 hour.")]))
    ∧ (∀ num u q, matchDuration (jsTrim s) = some (num, u) → decimalFull num = some q →
        parseDuration s = (some (q * unitFactor u.toLower), [])) := by
  constructor
  · intro h
    simp only [parseDuration, h]
    norm_num
  · intro num u q hm hq
    have hu : isUnitChar u = true := matchDuration_unit hm
    have hv : jsParseFloat num = some q := jsParseFloat_of_decimalFull hq
    have hcase : u.toLower = 'h' ∨ u.toLower = 'm' ∨ u.toLower = 's' := by
      simpa [isUnitChar, or_assoc] using hu
    rcases hcase with hc | hc | hc <;>
      simp [parseDuration, hm, hv, hc, unitFactor]

/-- Witness for C5 (amended): `"1.5h"` parses to 1.5 hours with no
error log, and the non-matching `"xyz"` yields the one-hour fallback
plus the error log. -/
theorem parseDuration_spec_amended_witness :
    parseDuration "1.5h" = (some 5400000, [])
    ∧ parseDuration "xyz" = (some 3600000,
        [Effect.logError "Invalid duration format: \"xyz\". Using default 1 hour."]) := by
  constructor
  · have h := (parseDuration_spec_amended "1.5h").2 ['1', '.', '5'] 'h' (3/2) (by decide)
      (by simp +decide [decimalFull, jsParseFloat, parseFloatParts, digitsVal]; norm_num)
    rw [h]
    simp only [show ('h' : Char).toLower = 'h' from rfl]
    norm_num [unitFactor]
  · exact (parseDuration_spec_amended "xyz").1 (by decide)

/-- C10: the regex class `[\d.]+` accepts numeric parts that are not
well-formed decimals; `".h"` (dots only) yields NaN with no error
logged, and in `"10.5.5m"` the extra dotted tail is silently truncated
by `parseFloat` (10.5 minutes = 630,000 ms) — neither input takes the
malformed-input error path nor produces the one-hour fallback. -/
theorem parseDuration_pattern_gaps :
    (matchDuration (jsTrim ".h")).isSome = true
    ∧ decimalFull ['.'] = none
    ∧ (parseDuration ".h").1 = none
    ∧ (parseDuration ".h").2 = []
    ∧ (matchDuration (jsTrim "10.5.5m")).isSome = true
    ∧ decimalFull "10.5.5".data = none
    ∧ parseDuration "10.5.5m" = (some 630000, [])
    ∧ (630000 : ℚ) ≠ 3600000 := by
  refine ⟨rfl, rfl, rfl, rfl, rfl, rfl, ?_, by norm_num⟩
  simp +decide [parseDuration, matchDuration, jsTrim, jsParseFloat, parseFloatParts, digitsVal]
  norm_num

/-! ### C4 — interval validation -/

/-- C4: for every pair with `min ≤ max ≤ 30` minutes (1,800,000 ms)
`validateLockIntervals` returns valid; a `min` over the cap yields the
min-exceeds-ceiling violation; a `max` over the cap (with `min` within
it) yields the max-exceeds-ceiling violation; and `min > max` (both
within the cap) yields the min-greater-than-max violation. -/
theorem validateLockIntervals_spec (a b : ℚ) :
    (a ≤ b → b ≤ 1800000 → validateLockIntervals (some a) (some b) = (true, none))
    ∧ (1800000 < a → validateLockIntervals (some a) (some b) =
        (false, some "Minimum lock interval exceeds 30 minutes limit"))
    ∧ (a ≤ 1800000 → 1800000 < b → validateLockIntervals (some a) (some b) =
        (false, some "Maximum lock interval exceeds 30 minutes limit"))
    ∧ (a ≤ 1800000 → b ≤ 1800000 → b < a → validateLockIntervals (some a) (some b) =
        (false, some (minGtMaxMsg (some a) (some b)))) := by
  have hm : MAX_INTERVAL_MS = 1800000 := by norm_num [MAX_INTERVAL_MS]
  refine ⟨?_, ?_, ?_, ?_⟩
  · intro h1 h2
    have ha : ¬MAX_INTERVAL_MS < a := by rw [hm]; linarith
    have hb : ¬MAX_INTERVAL_MS < b := by rw [hm]; linarith
    have hab : ¬b < a := by linarith
    simp [validateLockIntervals, jsGt, ha, hb, hab]
  · intro h
    have ha : MAX_INTERVAL_MS < a := by rw [hm]; linarith
    simp [validateLockIntervals, jsGt, ha]
  · intro h1 h2
    have ha : ¬MAX_INTERVAL_MS < a := by rw [hm]; linarith
    have hb : MAX_INTERVAL_MS < b := by rw [hm]; linarith
    simp [validateLockIntervals, jsGt, ha, hb]
  · intro h1 h2 h3
    have ha : ¬MAX_INTERVAL_MS < a := by rw [hm]; linarith
    have hb : ¬MAX_INTERVAL_MS < b := by rw [hm]; linarith
    simp [validateLockIntervals, jsGt, ha, hb, h3]

/-- Witness for C4 at concrete intervals (10 and 20 minutes for the
valid case, and one input per violation). -/
theorem validateLockIntervals_spec_witness :
    validateLockIntervals (some 600000) (some 1200000) = (true, none)
    ∧ validateLockIntervals (some 2000000) (some 1200000) =
        (false, some "Minimum lock interval exceeds 30 minutes limit")
    ∧ validateLockIntervals (some 600000) (some 2000000) =
        (false, some "Maximum lock interval exceeds 30 minutes limit")
    ∧ validateLockIntervals (some 1200000) (some 600000) =
        (false, some (minGtMaxMsg (some 1200000) (some 600000))) :=
  ⟨(validateLockIntervals_spec 600000 1200000).1 (by norm_num) (by norm_num),
   (validateLockIntervals_spec 2000000 1200000).2.1 (by norm_num),
   (validateLockIntervals_spec 600000 2000000).2.2.1 (by norm_num) (by norm_num),
   (validateLockIntervals_spec 1200000 600000).2.2.2 (by norm_num) (by norm_num) (by norm_num)⟩

/-! ### C6 — random lock interval bounds -/

/-- C6: with `Math.random()`'s draw in `[0, 1)`, every value returned
by `getRandomLockInterval` for `min < max` lies in `[min, max]`, and
for `min = max` the exact value is returned with no randomness
involved. -/
theorem getRandomLockInterval_bounds (a b r : ℚ) (h0 : 0 ≤ r) (h1 : r < 1) :
    (a < b → ∃ v, getRandomLockInterval (some a) (some b) r = some v ∧ a ≤ v ∧ v ≤ b)
    ∧ getRandomLockInterval (some a) (some a) r = some a := by
  constructor
  · intro hab
    refine ⟨r * (b - a) + a, ?_, ?_, ?_⟩
    · simp [getRandomLockInterval, hab.ne]
    · nlinarith
    · nlinarith
  · simp [getRandomLockInterval]

/-- Witness for C6 at `min = 1 < max = 2` with draw `1/2`, and at
`min = max = 5`. -/
theorem getRandomLockInterval_bounds_witness :
    (∃ v, getRandomLockInterval (some 1) (some 2) (1/2) = some v ∧ 1 ≤ v ∧ v ≤ 2)
    ∧ getRandomLockInterval (some 5) (some 5) (1/2) = some 5 :=
  ⟨(getRandomLockInterval_bounds 1 2 (1/2) (by norm_num) (by norm_num)).1 (by norm_num),
   (getRandomLockInterval_bounds 5 5 (1/2) (by norm_num) (by norm_num)).2⟩

/-! ### C7 — device classification -/

/-- ASCII lowering (JavaScript `toLowerCase` on the characters that
occur here). -/
def lowerStr (s : String) : String := String.mk (s.data.map Char.toLower)

/-- Counterexample for C7: a listing line whose `"mouse"` marker is
upper-case.  It carries the `"slave  pointer"` marker and contains
`"mouse"` case-insensitively (and an extractable `id=7`), so the claim
counts it as a pointer/mouse line — but the code checks only for the
exact spellings `"Mouse"`/`"mouse"` and rejects it. -/
theorem mouse_match_not_case_insensitive_cex :
    lineIsMouse "⎜   ↳ USB MOUSE\tid=7\t[slave  pointer  (2)]".data = false
    ∧ strIncludes "⎜   ↳ USB MOUSE\tid=7\t[slave  pointer  (2)]" "slave  pointer" = true
    ∧ strIncludes (lowerStr "⎜   ↳ USB MOUSE\tid=7\t[slave  pointer  (2)]") "mouse" = true
    ∧ idScan "⎜   ↳ USB MOUSE\tid=7\t[slave  pointer  (2)]".data = some 7 := by
  refine ⟨by decide, by decide, by decide, by decide⟩

/-- C7 as amended: a line is counted as a keyboard exactly when it
contains both the `"slave  keyboard"` and `"wired keyboard"` markers,
and as a pointer/mouse exactly when it contains the `"slave  pointer"`
marker and the literal `"Mouse"` or `"mouse"` (exact case, not fully
case-insensitive); ids are taken from the trailing `id=<integer>`
token in order of appearance, and on the fixed dry-run mock listing
keyboard extraction yields exactly `[10]` and mouse extraction exactly
`[9]`. -/
theorem deviceClassification_spec :
    keyboardIdsFromOutput mockXinputList = [10]
    ∧ mouseIdsFromOutput mockXinputList = [9]
    ∧ (∀ l : List Char, lineIsMouse l = true ↔
        (inclAux "slave  pointer".data l = true
          ∧ (inclAux "Mouse".data l = true ∨ inclAux "mouse".data l = true)))
    ∧ (∀ l : List Char, lineIsKeyboard l = true ↔
        (inclAux "slave  keyboard".data l = true ∧ inclAux "wired keyboard".data l = true)) := by
  refine ⟨by decide, by decide, ?_, ?_⟩
  · intro l
    simp [lineIsMouse, Bool.and_eq_true, Bool.or_eq_true]
  · intro l
    simp [lineIsKeyboard, Bool.and_eq_true]

/-! ### C1 — the loop's secret guard -/

/-- C1: a `loopTask` iteration performs the credential-replay commands
only if the secret re-resolved at the start of that iteration is
non-empty after trimming; when the resolved secret is absent or trims
to empty the iteration returns with no effect at all (and does not
reschedule). -/
theorem loopIter_requires_secret (env : LoopEnv) (st : SvcState) :
    ((secretResolved env.storedSecret = none ∨ secretResolved env.storedSecret = some "") →
      loopIter env st = ([], false))
    ∧ (∀ e ∈ (loopIter env st).1, isCredentialReplay e = true →
        ∃ s, secretResolved env.storedSecret = some s ∧ s ≠ "") := by
  constructor
  · intro h
    simp [loopIter, secretTruthy_eq_false h]
  · intro e he _
    cases hg : secretTruthy env.storedSecret with
    | false => simp [loopIter, hg] at he
    | true =>
      unfold secretTruthy at hg
      cases hs : secretResolved env.storedSecret with
      | none => rw [hs] at hg; exact absurd hg (by simp)
      | some s =>
        rw [hs] at hg
        refine ⟨s, rfl, ?_⟩
        intro hemp
        subst hemp
        exact absurd hg (by decide)

/-- Witness for C1: an environment whose stored secret trims to the
empty string makes the iteration a no-op. -/
theorem loopIter_requires_secret_witness :
    loopIter
      (LoopEnv.mk false (some "   ") (some "1h") (some "10m") (some "20m")
        none none 0 0 true true true true true)
      (SvcState.mk true 0) = ([], false) :=
  (loopIter_requires_secret
      (LoopEnv.mk false (some "   ") (some "1h") (some "10m") (some "20m")
        none none 0 0 true true true true true)
      (SvcState.mk true 0)).1 (Or.inr (by decide))

/-! ### C3 — what `stop()` does to pending timers -/

/-- Counterexample for C3: with a single pending sleep timer (id 0),
`stop()`'s cancel-and-clear leaves the timer canceled and the set
empty, but `fired` stays empty — the canceled timer's callback (the
only place `resolve()` is invoked) never runs, so the corresponding
sleep promise never resolves, contrary to the claim that it "resolves
immediately".  Had the timer fired instead, `fired` would record it
(last conjunct). -/
theorem stop_cancel_never_resolves_cex :
    (stopClearTimers (TimerState.mk [0] [] [])).canceled = [0]
    ∧ (stopClearTimers (TimerState.mk [0] [] [])).pending = []
    ∧ (stopClearTimers (TimerState.mk [0] [] [])).fired = []
    ∧ (timerFire 0 (TimerState.mk [0] [] [])).fired = [0] := by
  refine ⟨rfl, rfl, rfl, by decide⟩

/-! ### C2 — cancellation during the locked-hold sleep -/

/-- One of the cycle steps that must not happen after a stop during the
locked-hold sleep: a device disable, a credential-replay command, or a
device re-enable. -/
def isPostStep (e : Effect) : Bool :=
  isDeviceDisable e || isCredentialReplay e || isDeviceEnable e

@[simp] lemma isPostStep_logInfo (m : String) : isPostStep (Effect.logInfo m) = false := rfl

@[simp] lemma isPostStep_logError (m : String) : isPostStep (Effect.logError m) = false := rfl

@[simp] lemma isPostStep_showInfo (m : String) : isPostStep (Effect.showInfo m) = false := rfl

@[simp] lemma isPostStep_showError (m : String) : isPostStep (Effect.showError m) = false := rfl

@[simp] lemma isPostStep_stopCall : isPostStep Effect.stopCall = false := rfl

@[simp] lemma isPostStep_sleepStart (q : Option ℚ) :
    isPostStep (Effect.sleepStart q) = false := rfl

@[simp] lemma isPostStep_runE_list (d : Bool) :
    isPostStep (runE d "xinput" ["list"]) = false := by cases d <;> rfl

@[simp] lemma isPostStep_runE_lock (d : Bool) :
    isPostStep (runE d "ft_lock" []) = false := by cases d <;> rfl

@[simp] lemma isPostStep_ffE_xset (d : Bool) (a : List String) :
    isPostStep (ffE d "xset" a) = false := by cases d <;> rfl

@[simp] lemma isPostStep_runE_loginctl (d : Bool) (a : List String) :
    isPostStep (runE d "loginctl" a) = false := by cases d <;> rfl

@[simp] lemma isSleepStart_logInfo (m : String) : isSleepStart (Effect.logInfo m) = false := rfl

@[simp] lemma isSleepStart_logError (m : String) :
    isSleepStart (Effect.logError m) = false := rfl

@[simp] lemma isSleepStart_showInfo (m : String) :
    isSleepStart (Effect.showInfo m) = false := rfl

@[simp] lemma isSleepStart_showError (m : String) :
    isSleepStart (Effect.showError m) = false := rfl

@[simp] lemma isSleepStart_stopCall : isSleepStart Effect.stopCall = false := rfl

@[simp] lemma isSleepStart_sleep (q : Option ℚ) :
    isSleepStart (Effect.sleepStart q) = true := rfl

@[simp] lemma isSleepStart_runE (d : Bool) (c : String) (a : List String) :
    isSleepStart (runE d c a) = false := by cases d <;> rfl

@[simp] lemma isSleepStart_ffE (d : Bool) (c : String) (a : List String) :
    isSleepStart (ffE d c a) = false := by cases d <;> rfl

/-- Membership in a dry-run-only log list implies membership in the
underlying list. -/
lemma mem_dryLogs {d : Bool} {l : List Effect} {e : Effect}
    (h : e ∈ dryLogs d l) : e ∈ l := by
  cases d
  · simp [dryLogs] at h
  · simpa [dryLogs] using h

/-- Benign-trace facts compose under append. -/
lemma benign_append {A B : List Effect}
    (hA : ∀ e ∈ A, isPostStep e = false ∧ isSleepStart e = false)
    (hB : ∀ e ∈ B, isPostStep e = false ∧ isSleepStart e = false) :
    ∀ e ∈ A ++ B, isPostStep e = false ∧ isSleepStart e = false := by
  intro e he
  rcases List.mem_append.mp he with h | h
  exacts [hA e h, hB e h]

/-- The logs emitted by a `parseDuration` call are never cycle steps or
sleeps. -/
lemma parseDuration_logs_benign (s : String) :
    ∀ e ∈ (parseDuration s).2, isPostStep e = false ∧ isSleepStart e = false := by
  unfold parseDuration
  cases matchDuration (jsTrim s) with
  | none => simp
  | some p => cases p; simp

/-- The effects of the mouse enumeration are the listing query and
possibly an error log. -/
lemma getMouseIdsM_effects_benign (env : LoopEnv) :
    ∀ e ∈ (getMouseIdsM env).1, isPostStep e = false ∧ isSleepStart e = false := by
  unfold getMouseIdsM
  cases xinputListOut env <;> simp

/-- The effects of the keyboard enumeration are the listing query and
possibly an error log. -/
lemma getKeyboardIdsM_effects_benign (env : LoopEnv) :
    ∀ e ∈ (getKeyboardIdsM env).1, isPostStep e = false ∧ isSleepStart e = false := by
  unfold getKeyboardIdsM
  cases xinputListOut env <;> simp

/-- The effects of `terminateSession` are `loginctl` invocations and
logs. -/
lemma terminateSessionEffects_benign (env : LoopEnv) :
    ∀ e ∈ terminateSessionEffects env, isPostStep e = false ∧ isSleepStart e = false := by
  unfold terminateSessionEffects
  cases (if env.dryRun then some mockLoginctl else env.loginctlResult) with
  | none => simp
  | some out => cases hs : firstSession out <;> simp [hs]

/-- A trace of benign effects contains no post-suspension step and no
sleep at all. -/
lemma conclude_benign {l : List Effect}
    (h : ∀ e ∈ l, isPostStep e = false ∧ isSleepStart e = false) :
    l.all (fun e => !isPostStep e) = true ∧ l.countP isSleepStart ≤ 1 := by
  refine ⟨List.all_eq_true.mpr (fun e he => by simp [(h e he).1]), ?_⟩
  have h0 : l.countP isSleepStart = 0 :=
    List.countP_eq_zero.mpr (fun e he => by simp [(h e he).2])
  omega

/-- A benign trace followed by a single sleep contains no
post-suspension step and at most one sleep. -/
lemma conclude_benign_sleep {X : List Effect} {q : Option ℚ}
    (h : ∀ e ∈ X, isPostStep e = false ∧ isSleepStart e = false) :
    (X ++ [Effect.sleepStart q]).all (fun e => !isPostStep e) = true
    ∧ (X ++ [Effect.sleepStart q]).countP isSleepStart ≤ 1 := by
  constructor
  · refine List.all_eq_true.mpr ?_
    intro e he
    rcases List.mem_append.mp he with h1 | h1
    · simp [(h e h1).1]
    · simp at h1
      subst h1
      simp
  · rw [List.countP_append]
    have h0 : X.countP isSleepStart = 0 :=
      List.countP_eq_zero.mpr (fun e he => by simp [(h e he).2])
    simp [h0, List.countP_cons]

/-- If the first suspension of a cycle never resumes (its timer was
canceled by `stop()`) or resumes with `active` false, the cycle body
performs no device disable, no credential replay, no device re-enable,
starts at most one sleep, and does not reschedule. -/
lemma loopBody_canceled_sleep1 (env : LoopEnv) (st : SvcState) (secret : String)
    (h : env.sleep1Fires = false ∨ env.activeAfterSleep1 = false) :
    ((loopBody env st secret).1.all (fun e => !isPostStep e) = true)
    ∧ (loopBody env st secret).1.countP isSleepStart ≤ 1
    ∧ (loopBody env st secret).2 = false := by
  have hd := parseDuration_logs_benign ((env.durationCfg).getD "1h")
  have hn := parseDuration_logs_benign ((env.lockMinCfg).getD "10m")
  have hx := parseDuration_logs_benign ((env.lockMaxCfg).getD "20m")
  have hm := getMouseIdsM_effects_benign env
  have hk := getKeyboardIdsM_effects_benign env
  have ht := terminateSessionEffects_benign env
  have hdl : ∀ (l : List Effect), (∀ e ∈ l, isPostStep e = false ∧ isSleepStart e = false) →
      ∀ e ∈ dryLogs env.dryRun l, isPostStep e = false ∧ isSleepStart e = false :=
    fun l hl e he => hl e (mem_dryLogs he)
  simp only [loopBody]
  split
  · -- interval validation failed
    exact
      ⟨(conclude_benign (benign_append (benign_append (benign_append hd hn) hx) (by simp))).1,
       (conclude_benign (benign_append (benign_append (benign_append hd hn) hx) (by simp))).2,
       rfl⟩
  · split
    · -- duration expired
      exact
        ⟨(conclude_benign (benign_append (benign_append (benign_append
            (benign_append (benign_append hd hn) hx) (by simp)) ht) (by simp))).1,
         (conclude_benign (benign_append (benign_append (benign_append
            (benign_append (benign_append hd hn) hx) (by simp)) ht) (by simp))).2,
         rfl⟩
    · -- main path: trace up to (and including) the first sleep
      split
      · exact
          ⟨(conclude_benign_sleep (benign_append (benign_append (benign_append (benign_append
              (benign_append (benign_append (benign_append (benign_append hd hn) hx)
                (hdl _ (by simp))) hm) hk) (hdl _ (by simp))) (by simp)) (hdl _ (by simp)))).1,
           (conclude_benign_sleep (benign_append (benign_append (benign_append (benign_append
              (benign_append (benign_append (benign_append (benign_append hd hn) hx)
                (hdl _ (by simp))) hm) hk) (hdl _ (by simp))) (by simp)) (hdl _ (by simp)))).2,
           rfl⟩
      · split
        · exact
            ⟨(conclude_benign_sleep (benign_append (benign_append (benign_append (benign_append
                (benign_append (benign_append (benign_append (benign_append hd hn) hx)
                  (hdl _ (by simp))) hm) hk) (hdl _ (by simp))) (by simp)) (hdl _ (by simp)))).1,
             (conclude_benign_sleep (benign_append (benign_append (benign_append (benign_append
                (benign_append (benign_append (benign_append (benign_append hd hn) hx)
                  (hdl _ (by simp))) hm) hk) (hdl _ (by simp))) (by simp)) (hdl _ (by simp)))).2,
             rfl⟩
        · rename_i hf ha
          rcases h with h | h
          · exact absurd h hf
          · exact absurd h ha

/-- C2: if `stop()` arrives while a cycle is suspended in the
locked-hold sleep — so that either the canceled timer never resumes the
task, or the task resumes and reads `active = false` — then none of the
cycle's remaining steps run: no device disable, no credential replay,
no unlocked-hold sleep (at most the one sleep already started), no
device re-enable, and no rescheduling; and after `stop()` the
pending-timer set is empty. -/
theorem loopIter_stop_during_lock_hold (env : LoopEnv) (st : SvcState)
    (h : env.sleep1Fires = false ∨ env.activeAfterSleep1 = false) :
    (∀ e ∈ (loopIter env st).1,
      isDeviceDisable e = false ∧ isCredentialReplay e = false ∧ isDeviceEnable e = false)
    ∧ (loopIter env st).1.countP isSleepStart ≤ 1
    ∧ (loopIter env st).2 = false
    ∧ (∀ s : StopState, (stopFn s).1.timers.pending = []) := by
  obtain ⟨hb1, hb2, hb3⟩ :=
    loopBody_canceled_sleep1 env st ((secretResolved env.storedSecret).getD "") h
  have key : (∀ e ∈ (loopIter env st).1, isPostStep e = false)
      ∧ (loopIter env st).1.countP isSleepStart ≤ 1
      ∧ (loopIter env st).2 = false := by
    cases hg : secretTruthy env.storedSecret && st.active with
    | false =>
      refine ⟨?_, ?_, ?_⟩ <;> simp [loopIter, hg]
    | true =>
      have hiter : loopIter env st =
          loopBody env st ((secretResolved env.storedSecret).getD "") := by
        simp [loopIter, hg]
      rw [hiter]
      refine ⟨?_, hb2, hb3⟩
      intro e he
      have := List.all_eq_true.mp hb1 e he
      simpa using this
  refine ⟨?_, key.2.1, key.2.2, ?_⟩
  · intro e he
    have hp := key.1 e he
    unfold isPostStep at hp
    simp only [Bool.or_eq_false_iff] at hp
    exact ⟨hp.1.1, hp.1.2, hp.2⟩
  · intro s
    exact (stopClearTimers_spec s.timers).1

/-- Witness for C2: a dry-run environment whose first sleep timer was
canceled. -/
theorem loopIter_stop_during_lock_hold_witness :
    (loopIter
        (LoopEnv.mk true (some "pw") (some "1h") (some "10m") (some "20m")
          none none 0 0 false false false false false)
        (SvcState.mk true 0)).1.countP isSleepStart ≤ 1
    ∧ (loopIter
        (LoopEnv.mk true (some "pw") (some "1h") (some "10m") (some "20m")
          none none 0 0 false false false false false)
        (SvcState.mk true 0)).2 = false
    ∧ (stopFn (StopState.mk true (TimerState.mk [3] [] []) true)).1.timers.pending = [] :=
  ⟨(loopIter_stop_during_lock_hold
      (LoopEnv.mk true (some "pw") (some "1h") (some "10m") (some "20m")
        none none 0 0 false false false false false)
      (SvcState.mk true 0) (Or.inl rfl)).2.1,
   (loopIter_stop_during_lock_hold
      (LoopEnv.mk true (some "pw") (some "1h") (some "10m") (some "20m")
        none none 0 0 false false false false false)
      (SvcState.mk true 0) (Or.inl rfl)).2.2.1,
   (loopIter_stop_during_lock_hold
      (LoopEnv.mk true (some "pw") (some "1h") (some "10m") (some "20m")
        none none 0 0 false false false false false)
      (SvcState.mk true 0) (Or.inl rfl)).2.2.2
      (StopState.mk true (TimerState.mk [3] [] []) true)⟩

/-- C3 as amended: `stop()` cancels every entry of the pending-timer
set and clears the set before reaching its completion logging, so every
member is canceled (none fires during `stop()`); but canceling leaves
the corresponding sleep promises unresolved (`fired` unchanged) rather
than resolving them. -/
theorem stopFn_drains_timers (s : StopState) :
    (stopFn s).1.timers.pending = []
    ∧ (stopFn s).1.timers.canceled = s.timers.canceled ++ s.timers.pending
    ∧ (stopFn s).1.timers.fired = s.timers.fired
    ∧ (stopFn s).1.active = false := by
  obtain ⟨h1, h2, h3⟩ := stopClearTimers_spec s.timers
  exact ⟨h1, h2, h3, rfl⟩

/-! ### C8 / C9 — `start()` preconditions and idempotence -/

/-- No `which` probe is the session-lock command. -/
lemma checkBinEffects_no_lock (env : StartEnv) :
    ∀ e ∈ checkBinEffects env, isLockCmd e = false := by
  unfold checkBinEffects REQUIRED_BINARIES
  cases env.dryRun <;> decide

/-- `setSecretFn` only writes the secret store: every other field is
unchanged, and its effects contain no lock invocation. -/
lemma setSecretFn_frame (env : StartEnv) (st : StartState) :
    (setSecretFn env st).1.active = st.active
    ∧ (setSecretFn env st).1.startTime = st.startTime
    ∧ (setSecretFn env st).1.hasLoopTask = st.hasLoopTask
    ∧ ∀ e ∈ (setSecretFn env st).2, isLockCmd e = false := by
  unfold setSecretFn
  cases env.pwInput with
  | none => simp [isLockCmd, effCmdArgs]
  | some pw =>
    by_cases hp : pw.data.isEmpty = true <;> simp [hp, isLockCmd, effCmdArgs]

/-- When the service is already active, the post-gate part of
`start()` changes none of the `active`/`startTime`/`hasLoopTask`
fields and issues no lock command. -/
lemma startAfterGate_noop (env : StartEnv) (st : StartState) (h : st.active = true)
    (gateEff : List Effect) (hg : ∀ e ∈ gateEff, isLockCmd e = false) :
    (startAfterGate env st gateEff).1.active = st.active
    ∧ (startAfterGate env st gateEff).1.startTime = st.startTime
    ∧ (startAfterGate env st gateEff).1.hasLoopTask = st.hasLoopTask
    ∧ ∀ e ∈ (startAfterGate env st gateEff).2, isLockCmd e = false := by
  obtain ⟨f1, f2, f3, f4⟩ := setSecretFn_frame env st
  unfold startAfterGate
  by_cases hs : secretTruthy st.secretStore = false
  · rw [if_pos hs]
    by_cases hp : env.promptChoice = some "Set Secret Now"
    · rw [if_pos hp]
      dsimp only
      refine ⟨f1, f2, f3, ?_⟩
      intro e he
      simp only [List.mem_append, List.mem_singleton] at he
      rcases he with ((he | he) | he) | he
      · exact hg e he
      · subst he; rfl
      · exact f4 e he
      · subst he; rfl
    · rw [if_neg hp]
      dsimp only
      refine ⟨rfl, rfl, rfl, ?_⟩
      intro e he
      simp only [List.mem_append, List.mem_singleton] at he
      rcases he with he | he
      · exact hg e he
      · subst he; rfl
  · rw [if_neg hs, if_neg (by simp [h])]
    exact ⟨rfl, rfl, rfl, hg⟩

/-- C8: when `start()` reaches the secret gate (the binary gate already
passed) with the service inactive and no stored secret — or one that
trims to empty — no session is created: `active` stays false, no loop
task is started, no lock command is issued, and the user is prompted to
set a secret; this holds for every dialog response, so even when the
user sets a secret in response `start()` still returns without starting
in that same call. -/
theorem start_requires_secret (env : StartEnv) (st : StartState)
    (hchk : st.requiredBinariesChecked = true) (hact : st.active = false)
    (hsec : secretResolved st.secretStore = none ∨ secretResolved st.secretStore = some "") :
    (startFn env st).1.active = false
    ∧ (startFn env st).1.hasLoopTask = st.hasLoopTask
    ∧ (∀ e ∈ (startFn env st).2, isLockCmd e = false)
    ∧ Effect.showError secretPromptMsg ∈ (startFn env st).2 := by
  have hb : secretTruthy st.secretStore = false := secretTruthy_eq_false hsec
  have hgate : startFn env st = startAfterGate env st [] := by
    simp [startFn, hchk]
  obtain ⟨f1, f2, f3, f4⟩ := setSecretFn_frame env st
  rw [hgate]
  unfold startAfterGate
  rw [if_pos hb]
  by_cases hp : env.promptChoice = some "Set Secret Now"
  · rw [if_pos hp]
    dsimp only
    refine ⟨f1.trans hact, f3, ?_, by simp⟩
    intro e he
    simp only [List.nil_append, List.mem_append, List.mem_singleton] at he
    rcases he with (he | he) | he
    · subst he; rfl
    · exact f4 e he
    · subst he; rfl
  · rw [if_neg hp]
    dsimp only
    refine ⟨hact, rfl, ?_, by simp⟩
    intro e he
    simp only [List.nil_append, List.mem_singleton] at he
    subst he
    rfl

/-- Witness for C8: inactive service, binary gate already passed, no
stored secret; the user declines to set one. -/
theorem start_requires_secret_witness :
    (startFn (StartEnv.mk false (fun b => !b.data.isEmpty) none none none none none 0)
        (StartState.mk false 0 false true none)).1.active = false
    ∧ Effect.showError secretPromptMsg ∈
        (startFn (StartEnv.mk false (fun b => !b.data.isEmpty) none none none none none 0)
          (StartState.mk false 0 false true none)).2 :=
  ⟨(start_requires_secret
      (StartEnv.mk false (fun b => !b.data.isEmpty) none none none none none 0)
      (StartState.mk false 0 false true none) rfl rfl (Or.inl rfl)).1,
   (start_requires_secret
      (StartEnv.mk false (fun b => !b.data.isEmpty) none none none none none 0)
      (StartState.mk false 0 false true none) rfl rfl (Or.inl rfl)).2.2.2⟩

/-- C9: calling `start()` while the scheduler is already active is a
no-op: the `active` flag, the start timestamp and the pending
continuation are unchanged, no lock command is issued and no second
loop task is created — whatever the binary gate, the stored secret and
the dialog responses are. -/
theorem start_noop_when_active (env : StartEnv) (st : StartState) (h : st.active = true) :
    (startFn env st).1.active = st.active
    ∧ (startFn env st).1.startTime = st.startTime
    ∧ (startFn env st).1.hasLoopTask = st.hasLoopTask
    ∧ ∀ e ∈ (startFn env st).2, isLockCmd e = false := by
  unfold startFn
  by_cases hchk : st.requiredBinariesChecked = true
  · rw [if_pos hchk]
    exact startAfterGate_noop env st h [] (by simp)
  · rw [if_neg hchk]
    by_cases hmiss : (missingBinaries env).isEmpty = false ∧ env.dryRun = false
    · rw [if_pos (by simp [hmiss.1, hmiss.2])]
      dsimp only
      refine ⟨rfl, rfl, rfl, ?_⟩
      intro e he
      simp only [List.mem_append, List.mem_singleton] at he
      rcases he with he | he
      · exact checkBinEffects_no_lock env e he
      · subst he; rfl
    · rw [if_neg (by
        intro hcon
        simp only [Bool.and_eq_true, decide_eq_true_eq] at hcon
        exact hmiss ⟨hcon.1, hcon.2⟩)]
      exact startAfterGate_noop env
        (StartState.mk st.active st.startTime st.hasLoopTask true st.secretStore)
        h (checkBinEffects env) (checkBinEffects_no_lock env)

/-- Witness for C9: an already-active service with a stored secret;
`start()` leaves the state unchanged. -/
theorem start_noop_when_active_witness :
    (startFn (StartEnv.mk true (fun b => !b.data.isEmpty) none none none none none 7)
        (StartState.mk true 42 true true (some "pw"))).1.active = true
    ∧ (startFn (StartEnv.mk true (fun b => !b.data.isEmpty) none none none none none 7)
        (StartState.mk true 42 true true (some "pw"))).1.startTime = 42
    ∧ (startFn (StartEnv.mk true (fun b => !b.data.isEmpty) none none none none none 7)
        (StartState.mk true 42 true true (some "pw"))).1.hasLoopTask = true :=
  ⟨(start_noop_when_active
      (StartEnv.mk true (fun b => !b.data.isEmpty) none none none none none 7)
      (StartState.mk true 42 true true (some "pw")) rfl).1,
   (start_noop_when_active
      (StartEnv.mk true (fun b => !b.data.isEmpty) none none none none none 7)
      (StartState.mk true 42 true true (some "pw")) rfl).2.1,
   (start_noop_when_active
      (StartEnv.mk true (fun b => !b.data.isEmpty) none none none none none 7)
      (StartState.mk true 42 true true (some "pw")) rfl).2.2.1⟩

end BlueBerry
